import Mathlib

/-!
Verification of the homework-status polling bot (`homework.py`).

The Python program is shallowly embedded: JSON/Python values become the
inductive `PyVal`, raised exceptions become the `Except PyExc` monad, the
environment becomes an explicit `Env` record, and the infinite poll loop of
`main` becomes a step function on an explicit `PollState` that returns the
list of messages handed to `send_message` during one cycle.
-/

set_option autoImplicit false

namespace HomeworkBot

/-- A single-quote character, used to render Python `repr` of strings
(for example `str(KeyError("k"))` shows the key wrapped in single quotes). -/
def sq : String := String.singleton (Char.ofNat 39)

/-- Python/JSON values as far as this program manipulates them:
strings, integers, `None`, lists, and string-keyed dictionaries. -/
inductive PyVal where
  | str (s : String)
  | int (n : Int)
  | pyNone
  | list (xs : List PyVal)
  | dict (entries : List (String × PyVal))

mutual

/-- Python `repr` of a value (element rendering inside lists/dicts). -/
def pyRepr : PyVal → String
  | .str s => sq ++ s ++ sq
  | .int n => toString n
  | .pyNone => "None"
  | .list xs => "[" ++ pyReprItems xs ++ "]"
  | .dict es => "\x7b" ++ pyReprEntries es ++ "\x7d"

/-- Comma-separated `repr` of list items. -/
def pyReprItems : List PyVal → String
  | [] => ""
  | [x] => pyRepr x
  | x :: xs => pyRepr x ++ ", " ++ pyReprItems xs

/-- Comma-separated `repr` of dict entries. -/
def pyReprEntries : List (String × PyVal) → String
  | [] => ""
  | [(k, v)] => sq ++ k ++ sq ++ ": " ++ pyRepr v
  | (k, v) :: es => sq ++ k ++ sq ++ ": " ++ pyRepr v ++ ", " ++ pyReprEntries es

end

/-- Python `str()` of a value, as used by f-string interpolation. -/
def pyFormat : PyVal → String
  | .str s => s
  | v => pyRepr v

/-- Python truthiness of a value (`if homework and ...`). -/
def pyTruthy : PyVal → Bool
  | .str s => s ≠ ""
  | .int n => n ≠ 0
  | .pyNone => false
  | .list xs => ¬ xs.isEmpty
  | .dict es => ¬ es.isEmpty

mutual

/-- Python equality between the values this program compares (`status !=
homework[...]`); structural on strings, integers, lists and dicts. -/
def pyEqV : PyVal → PyVal → Bool
  | .str a, .str b => a = b
  | .int a, .int b => a = b
  | .pyNone, .pyNone => true
  | .list xs, .list ys => pyEqList xs ys
  | .dict xs, .dict ys => pyEqEntries xs ys
  | _, _ => false

/-- Elementwise Python equality of lists. -/
def pyEqList : List PyVal → List PyVal → Bool
  | [], [] => true
  | x :: xs, y :: ys => pyEqV x y && pyEqList xs ys
  | _, _ => false

/-- Entrywise Python equality of dict entry lists. -/
def pyEqEntries : List (String × PyVal) → List (String × PyVal) → Bool
  | [], [] => true
  | (k, v) :: xs, (l, w) :: ys => k = l && pyEqV v w && pyEqEntries xs ys
  | _, _ => false

end

/-- The exceptions this program can raise: its own exception classes from
`homework.py`, plus the built-in `KeyError` and `TypeError` and the
runtime `TypeError` raised by a wrong-arity constructor call. -/
inductive PyExc where
  | keyError (key : String)
  | typeError (msg : String)
  | requestExceptionError (msg : String)
  | statusCodeError (msg : String)
  | dictionaryError (msg : String)
  | unknownStatusError (msg : String)
  | tokenSystemError (msg : String)
  | environmentVariableError (msg : String)
deriving DecidableEq

/-- Python `str(exception)` as interpolated by `f"... : {error}"` in `main`;
`KeyError` shows the `repr` of its argument, hence the quotes. -/
def excMessage : PyExc → String
  | .keyError k => sq ++ k ++ sq
  | .typeError m => m
  | .requestExceptionError m => m
  | .statusCodeError m => m
  | .dictionaryError m => m
  | .unknownStatusError m => m
  | .tokenSystemError m => m
  | .environmentVariableError m => m

/-- `d[k]` on a Python value: key lookup on a dict, `KeyError` when the key
is absent, `TypeError` when the value is not subscriptable by a string. -/
def pySubscript (v : PyVal) (k : String) : Except PyExc PyVal :=
  match v with
  | .dict es =>
    match List.lookup k es with
    | some w => .ok w
    | Option.none => .error (.keyError k)
  | .str _ => .error (.typeError "string indices must be integers")
  | .list _ => .error (.typeError "list indices must be integers or slices, not str")
  | .int _ => .error (.typeError "int object is not subscriptable")
  | .pyNone => .error (.typeError "NoneType object is not subscriptable")

/-- `k in v` on a Python value: key membership for a dict, substring test
for a string, element membership for a list, `TypeError` otherwise. -/
def pyContains (k : String) (v : PyVal) : Except PyExc Bool :=
  match v with
  | .dict es => .ok (List.lookup k es).isSome
  | .str s => .ok (decide (k.data <:+: s.data))
  | .list xs => .ok (xs.any (pyEqV (.str k)))
  | .int _ => .error (.typeError "argument of type int is not iterable")
  | .pyNone => .error (.typeError "argument of type NoneType is not iterable")

/-- `xs[0]` on a Python value: first element of a list; the failure cases
cannot occur in the program, whose only `[0]` is applied to the non-empty
list returned by `check_response`. -/
def pyIndex0 (v : PyVal) : Except PyExc PyVal :=
  match v with
  | .list (x :: _) => .ok x
  | .list [] => .error (.typeError "list index out of range")
  | _ => .error (.typeError "value is not indexable by an integer")

/-- The `HOMEWORK_STATUSES` constant of `homework.py`. -/
def HOMEWORK_STATUSES : List (String × String) :=
  [("approved", "Работа проверена: ревьюеру всё понравилось. Ура!"),
   ("reviewing", "Работа взята на проверку ревьюером."),
   ("rejected", "Работа проверена: у ревьюера есть замечания.")]

/-- The `RETRY_TIME` constant of `homework.py`. -/
def RETRY_TIME : Nat := 600

/-- An HTTP response as seen by `get_api_answer`: the status code and,
when the body is valid JSON, the decoded value (`none` models a body on
which `.json()` raises `json.JSONDecodeError`). -/
structure HttpResponse where
  status_code : Int
  body : Option PyVal

/-- The message of the `TypeError` raised when `json.JSONDecodeError` is
called with a single argument instead of its three required positional
arguments `msg`, `doc` and `pos`. -/
def jsonDecodeArityMessage : String :=
  "JSONDecodeError.__init__() missing 2 required positional arguments: " ++
    sq ++ "doc" ++ sq ++ " and " ++ sq ++ "pos" ++ sq

/-- `get_api_answer` from `homework.py`. The network is an explicit
parameter `net` mapping the `from_date` timestamp to either a transport
failure (the `requests.exceptions.RequestException` text) or a response.
`timestamp = current_timestamp or int(time.time())` uses Python truthiness,
so `0` falls back to `now`. On a non-200 status the function raises
`StatusCodeError`. On an undecodable body the source executes
`raise json.JSONDecodeError(api_answer_error)`; since
`json.JSONDecodeError.__init__` requires `(msg, doc, pos)`, that call
itself raises `TypeError`, which is the exception that actually leaves the
function. -/
def get_api_answer (current_timestamp : Int) (now : Int)
    (net : Int → Except String HttpResponse) : Except PyExc PyVal :=
  let timestamp := if current_timestamp ≠ 0 then current_timestamp else now
  match net timestamp with
  | .error requests_error =>
    .error (.requestExceptionError ("Ошибка при запросе к API: " ++ requests_error))
  | .ok r =>
    if r.status_code ≠ 200 then
      .error (.statusCodeError ("Ошибка " ++ toString r.status_code))
    else
      match r.body with
      | some v => .ok v
      | Option.none => .error (.typeError jsonDecodeArityMessage)

/-- `check_response` from `homework.py`, statement by statement: the `None`
check (`DictionaryError`), the exact `type(...) is not dict` check
(`TypeError`), the subscript `response["homeworks"]` (which itself raises
`KeyError` when the key is absent) combined with the `is not list` check
(`TypeError`), the emptiness check (which raises
`KeyError("Список домашних работ пуст")`), and finally the list itself. -/
def check_response (response : PyVal) : Except PyExc PyVal :=
  match response with
  | .pyNone => .error (.dictionaryError "response имеет неправильное значение")
  | .dict es =>
    match List.lookup "homeworks" es with
    | Option.none => .error (.keyError "homeworks")
    | some hw =>
      match hw with
      | .list xs =>
        if xs.isEmpty then .error (.keyError "Список домашних работ пуст")
        else .ok (.list xs)
      | _ => .error (.typeError "Домашняя работа не является списком")
  | _ => .error (.typeError "Ответ не является словарем")

/-- `homework_status not in HOMEWORK_STATUSES` followed by
`HOMEWORK_STATUSES[homework_status]`: for a string key this is a dict
lookup; a non-string hashable key (int, None) is simply absent; an
unhashable key (list, dict) makes the membership test itself raise
`TypeError`. -/
def statusMembership : PyVal → Except PyExc (Option String)
  | .str s => .ok (List.lookup s HOMEWORK_STATUSES)
  | .int _ => .ok Option.none
  | .pyNone => .ok Option.none
  | .list _ => .error (.typeError "unhashable type: list")
  | .dict _ => .error (.typeError "unhashable type: dict")

/-- `parse_status` from `homework.py`, statement by statement: the
subscript `homework["homework_name"]` (which itself raises) comes before
the guard `if "homework_name" not in homework`, and likewise for
`"status"`; then the membership test against `HOMEWORK_STATUSES` and the
formatted result. -/
def parse_status (homework : PyVal) : Except PyExc String :=
  match pySubscript homework "homework_name" with
  | .error e => .error e
  | .ok homework_name =>
    match pyContains "homework_name" homework with
    | .error e => .error e
    | .ok nameMem =>
      if ¬ nameMem then
        .error (.keyError "Отсутствует ключ \"homework_name\" в ответе API")
      else
        match pySubscript homework "status" with
        | .error e => .error e
        | .ok homework_status =>
          match pyContains "status" homework with
          | .error e => .error e
          | .ok statusMem =>
            if ¬ statusMem then
              .error (.keyError "Отсутствует ключ \"status\" в ответе API")
            else
              match statusMembership homework_status with
              | .error e => .error e
              | .ok Option.none =>
                .error (.unknownStatusError
                  ("Неизвестный статус работы: " ++ pyFormat homework_status))
              | .ok (some verdict) =>
                .ok ("Изменился статус проверки работы \"" ++
                  pyFormat homework_name ++ "\". " ++ verdict)

/-- The process environment as the program reads it: the three variables
`YANDEX_TOKEN`, `BOT_TOKEN` and `MY_ID`; `none` is an absent variable,
`some s` a present one (possibly with the empty value). -/
structure Env where
  yandexToken : Option String
  botToken : Option String
  myId : Option String

/-- The `keys` list inside `check_os_keys`. -/
def osKeys : List String := ["YANDEX_TOKEN", "BOT_TOKEN", "MY_ID"]

/-- `key in os.environ` for the keys the program consults; a variable
present with an empty value still counts as present. -/
def envHas (env : Env) (k : String) : Bool :=
  if k = "YANDEX_TOKEN" then env.yandexToken.isSome
  else if k = "BOT_TOKEN" then env.botToken.isSome
  else if k = "MY_ID" then env.myId.isSome
  else false

/-- `check_os_keys` from `homework.py`: returns `True` on the first key of
`osKeys` present in the environment; when none is, the loop body never
returns and the function implicitly returns `None`. -/
def check_os_keys (env : Env) : Option Bool :=
  if osKeys.any (envHas env) then some true else Option.none

/-- Python truthiness of an `os.getenv` result: absent (`None`) or empty
string is falsy. -/
def truthyEnv : Option String → Bool
  | Option.none => false
  | some s => s ≠ ""

/-- `check_tokens` from `homework.py`:
`all((PRACTICUM_TOKEN, TELEGRAM_TOKEN, TELEGRAM_CHAT_ID))` yields `True`,
otherwise the function implicitly returns `None`. -/
def check_tokens (env : Env) : Option Bool :=
  if truthyEnv env.yandexToken && truthyEnv env.botToken && truthyEnv env.myId
  then some true else Option.none

/-- Python truthiness of a `True`-or-`None` function result, as tested by
`if not check_os_keys():` and `if not check_tokens():`. -/
def truthyOptBool : Option Bool → Bool
  | Option.none => false
  | some b => b

/-- Outcome of the startup section of `main` (everything before the
`while True`): either a fatal raise — which happens before
`telegram.Bot(...)` is constructed and before any network request — or
entry into the poll loop. -/
inductive StartupResult where
  | fatal (e : PyExc)
  | enterLoop
deriving DecidableEq

/-- The startup section of `main`: the `check_os_keys` test raising
`TokenSystemError`, then the `check_tokens` test raising
`EnvironmentVariableError`, then loop entry. -/
def mainStartup (env : Env) : StartupResult :=
  if ¬ truthyOptBool (check_os_keys env) then
    .fatal (.tokenSystemError "Отсутствует токен в системе")
  else if ¬ truthyOptBool (check_tokens env) then
    .fatal (.environmentVariableError "Отсутствует переменная окружения")
  else
    .enterLoop

/-- The loop-local state of `main`: `status` (a Python value, initially the
empty string), `message_error` (initially the empty string, and — exactly
as in the source — never reassigned afterwards), and `current_timestamp`
(set once from `int(time.time())` before the loop and never reassigned). -/
structure PollState where
  status : PyVal
  message_error : String
  current_timestamp : Int

/-- The `try` block of one iteration of the `while True` loop of `main`,
given the outcome of `get_api_answer`: `check_response(response)[0]`, the
`if homework and status != homework["status"]` test (with Python
short-circuiting: the subscript is evaluated only when `homework` is
truthy), and on a change `parse_status`, `send_message`, and the
assignment `status = homework["status"]` (a second evaluation of the
subscript, as in the source). Returns the updated state and the messages
passed to `send_message`. -/
def cycleTry (st : PollState) (response : Except PyExc PyVal) :
    Except PyExc (PollState × List String) :=
  match response with
  | .error e => .error e
  | .ok resp =>
    match check_response resp with
    | .error e => .error e
    | .ok hws =>
      match pyIndex0 hws with
      | .error e => .error e
      | .ok homework =>
        if pyTruthy homework then
          match pySubscript homework "status" with
          | .error e => .error e
          | .ok hwStatus =>
            if pyEqV st.status hwStatus then
              .ok (st, [])
            else
              match parse_status homework with
              | .error e => .error e
              | .ok message =>
                match pySubscript homework "status" with
                | .error e => .error e
                | .ok newStatus =>
                  .ok ({ st with status := newStatus }, [message])
        else
          .ok (st, [])

/-- The text `f"Сбой в работе программы: \x7berror\x7d"` built by the
`except` handler of `main`. -/
def failMessage (e : PyExc) : String :=
  "Сбой в работе программы: " ++ excMessage e

/-- One full iteration of the `while True` loop of `main`: the `try` block,
and on any exception the `except` handler, which builds `failMessage`,
sends it only when it differs from `message_error`, and — as in the
source — never updates `message_error`. Returns the state after the
iteration and the messages passed to `send_message` during it. -/
def cycleOnResponse (st : PollState) (response : Except PyExc PyVal) :
    PollState × List String :=
  match cycleTry st response with
  | .ok result => result
  | .error e =>
    let message := failMessage e
    if message = st.message_error then (st, []) else (st, [message])

/-- One loop iteration including the call
`response = get_api_answer(current_timestamp)`: the timestamp argument is
the one stored in the state. -/
def pollCycle (net : Int → Except String HttpResponse) (now : Int)
    (st : PollState) : PollState × List String :=
  cycleOnResponse st (get_api_answer st.current_timestamp now net)

/-- The state after `n` loop iterations, where the network behaviour and
the clock may differ from cycle to cycle. -/
def iteratePoll (net : Nat → Int → Except String HttpResponse)
    (now : Nat → Int) (st : PollState) : Nat → PollState
  | 0 => st
  | n + 1 => (pollCycle (net n) (now n) (iteratePoll net now st n)).1

/-- Running `n` loop iterations against an unchanged remote state: every
cycle sees the same `get_api_answer` outcome `response`. Returns the final
state and the concatenation of all messages sent. -/
def runCycles (response : Except PyExc PyVal) : PollState → Nat → PollState × List String
  | st, 0 => (st, [])
  | st, n + 1 =>
    let c := cycleOnResponse st response
    let r := runCycles response c.1 n
    (r.1, c.2 ++ r.2)

/-- The state `main` enters the loop with: `status = ""`,
`message_error = ""`, and a process-start timestamp. -/
def initialState (t : Int) : PollState :=
  { status := .str "", message_error := "", current_timestamp := t }

/-- A network on which the endpoint answers every request with HTTP 503
(and no JSON body is ever read, since `get_api_answer` raises first). -/
def net503 : Int → Except String HttpResponse := fun _ => .ok ⟨503, Option.none⟩

/-- Python equality against a string value holds exactly for that string. -/
lemma pyEqV_str_iff (x : PyVal) (s : String) : pyEqV x (.str s) = true ↔ x = .str s := by
  cases x <;> simp [pyEqV]

/-- A successful lookup forces the entry list to be non-empty. -/
lemma isEmpty_false_of_lookup {k : String} {es : List (String × PyVal)} {v : PyVal}
    (h : List.lookup k es = some v) : es.isEmpty = false := by
  cases es with
  | nil => simp at h
  | cons a l => simp

/-- A cycle fed a valid response whose first record carries a known status
different from the stored one: `parse_status` succeeds, exactly one message
is sent, and the stored status becomes the record's status. -/
lemma cycle_eq_of_change (st : PollState) (res record : List (String × PyVal))
    (rest : List PyVal) (nameV : PyVal) (sc verdict : String)
    (hhw : List.lookup "homeworks" res = some (.list (PyVal.dict record :: rest)))
    (hname : List.lookup "homework_name" record = some nameV)
    (hstat : List.lookup "status" record = some (.str sc))
    (hv : List.lookup sc HOMEWORK_STATUSES = some verdict)
    (hne : pyEqV st.status (.str sc) = false) :
    cycleOnResponse st (.ok (.dict res)) =
      ({ st with status := .str sc },
       ["Изменился статус проверки работы \"" ++ pyFormat nameV ++ "\". " ++ verdict]) := by
  have hrec : record.isEmpty = false := isEmpty_false_of_lookup hname
  simp [cycleOnResponse, cycleTry, check_response, parse_status, pySubscript, pyContains,
    pyIndex0, pyTruthy, statusMembership, hhw, hname, hstat, hv, hne, hrec]

/-- A cycle fed a valid response whose first record carries a known status
equal to the stored one: nothing is sent and the state is unchanged. -/
lemma cycle_noop_of_same (st : PollState) (res record : List (String × PyVal))
    (rest : List PyVal) (nameV : PyVal) (sc : String)
    (hhw : List.lookup "homeworks" res = some (.list (PyVal.dict record :: rest)))
    (hname : List.lookup "homework_name" record = some nameV)
    (hstat : List.lookup "status" record = some (.str sc))
    (hsame : st.status = .str sc) :
    cycleOnResponse st (.ok (.dict res)) = (st, []) := by
  have hrec : record.isEmpty = false := isEmpty_false_of_lookup hname
  have heq : pyEqV st.status (.str sc) = true := (pyEqV_str_iff _ _).mpr hsame
  simp [cycleOnResponse, cycleTry, check_response, pySubscript, pyIndex0, pyTruthy,
    hhw, hstat, heq, hrec]

/-- Once the stored status equals the first record's status, any number of
further cycles against the unchanged response sends nothing and leaves the
state fixed. -/
lemma runCycles_noop (st : PollState) (res record : List (String × PyVal))
    (rest : List PyVal) (nameV : PyVal) (sc : String)
    (hhw : List.lookup "homeworks" res = some (.list (PyVal.dict record :: rest)))
    (hname : List.lookup "homework_name" record = some nameV)
    (hstat : List.lookup "status" record = some (.str sc))
    (hsame : st.status = .str sc) :
    ∀ n, runCycles (.ok (.dict res)) st n = (st, []) := by
  intro n
  induction n with
  | zero => rfl
  | succ k ih =>
    have hc := cycle_noop_of_same st res record rest nameV sc hhw hname hstat hsame
    simp [runCycles, hc, ih]

/-- The `try` block has only three outcomes: no change, a status update
with exactly one message, or an exception. -/
lemma cycleTry_cases (st : PollState) (r : Except PyExc PyVal) :
    cycleTry st r = .ok (st, []) ∨
      (∃ v m, cycleTry st r = .ok ({ st with status := v }, [m])) ∨
      ∃ e, cycleTry st r = .error e := by
  unfold cycleTry
  rcases r with e | resp
  · exact Or.inr (Or.inr ⟨e, rfl⟩)
  · rcases hcr : check_response resp with e | hws
    · exact Or.inr (Or.inr ⟨e, by simp [hcr]⟩)
    · rcases hix : pyIndex0 hws with e | homework
      · exact Or.inr (Or.inr ⟨e, by simp [hcr, hix]⟩)
      · by_cases ht : pyTruthy homework
        · rcases hsub : pySubscript homework "status" with e | hwStatus
          · exact Or.inr (Or.inr ⟨e, by simp [hcr, hix, ht, hsub]⟩)
          · by_cases heq : pyEqV st.status hwStatus
            · exact Or.inl (by simp [hcr, hix, ht, hsub, heq])
            · rcases hps : parse_status homework with e | msg
              · exact Or.inr (Or.inr ⟨e, by simp [hcr, hix, ht, hsub, heq, hps]⟩)
              · exact Or.inr (Or.inl ⟨hwStatus, msg,
                  by simp [hcr, hix, ht, hsub, heq, hps]⟩)
        · exact Or.inl (by simp [hcr, hix, ht])

/-- One loop iteration can only leave the state alone or replace its
`status` field; `message_error` and `current_timestamp` are never written. -/
lemma cycle_state_cases (st : PollState) (r : Except PyExc PyVal) :
    (cycleOnResponse st r).1 = st ∨
      ∃ v, (cycleOnResponse st r).1 = { st with status := v } := by
  rcases cycleTry_cases st r with h | ⟨v, m, h⟩ | ⟨e, h⟩
  · exact Or.inl (by simp [cycleOnResponse, h])
  · exact Or.inr ⟨v, by simp [cycleOnResponse, h]⟩
  · refine Or.inl ?_
    simp only [cycleOnResponse, h]
    split <;> simp

/-- The fields other than `status` survive one iteration unchanged. -/
lemma cycle_preserves_rest (st : PollState) (r : Except PyExc PyVal) :
    ((cycleOnResponse st r).1).current_timestamp = st.current_timestamp ∧
      ((cycleOnResponse st r).1).message_error = st.message_error := by
  rcases cycle_state_cases st r with h | ⟨v, h⟩ <;> simp [h]

/-- C10: `check_os_keys` returns `True` exactly when at least one of the
three environment variable names is present (even if the other two are
absent), and returns `None` exactly when all three are absent. -/
theorem check_os_keys_any_present (env : Env) :
    (check_os_keys env = some true ↔
      (env.yandexToken.isSome ∨ env.botToken.isSome ∨ env.myId.isSome)) ∧
    (check_os_keys env = Option.none ↔
      (env.yandexToken = Option.none ∧ env.botToken = Option.none ∧
        env.myId = Option.none)) := by
  rcases env with ⟨y, b, m⟩
  cases y <;> cases b <;> cases m <;> simp [check_os_keys, osKeys, envHas]

/-- C4: whenever one of the three credentials is missing or empty (falsy
in Python), `main` raises one of its two fatal configuration errors and
never reaches loop entry — in the embedding, `StartupResult.enterLoop`,
which in `main` comes before `telegram.Bot(...)` and every network
request. -/
theorem startup_fatal_on_missing_credential (env : Env)
    (h : truthyEnv env.yandexToken = false ∨ truthyEnv env.botToken = false ∨
      truthyEnv env.myId = false) :
    mainStartup env ≠ .enterLoop ∧
      (mainStartup env = .fatal (.tokenSystemError "Отсутствует токен в системе") ∨
        mainStartup env =
          .fatal (.environmentVariableError "Отсутствует переменная окружения")) := by
  have hct : check_tokens env = Option.none := by
    unfold check_tokens
    rcases h with h | h | h <;> simp [h]
  unfold mainStartup
  rcases hco : check_os_keys env with _ | b
  · simp [truthyOptBool]
  · cases b <;> simp [truthyOptBool, hct]

/-- C4 witness: with `BOT_TOKEN` absent (and the two other variables set),
startup is fatal and the loop is never entered. -/
theorem startup_fatal_on_missing_credential_witness :
    truthyEnv (Env.mk (some "x") Option.none (some "y")).botToken = false ∧
      mainStartup (Env.mk (some "x") Option.none (some "y")) ≠ .enterLoop :=
  ⟨by decide,
    (startup_fatal_on_missing_credential (Env.mk (some "x") Option.none (some "y"))
      (Or.inr (Or.inl rfl))).1⟩

/-- C2 counterexample: on the response `\x7b"homeworks": []\x7d`,
`check_response` does not return the empty sequence — it raises
`KeyError("Список домашних работ пуст")` — and the poll cycle does not
stay silent: the exception reaches the generic handler, which sends a
failure message. -/
theorem check_response_empty_raises :
    check_response (.dict [("homeworks", .list [])]) =
      .error (.keyError "Список домашних работ пуст") ∧
    (cycleOnResponse (initialState 0) (.ok (.dict [("homeworks", .list [])]))).2 =
      [failMessage (.keyError "Список домашних работ пуст")] := by
  constructor
  · rfl
  · decide

/-- C2 amended: for every mapping response whose `homeworks` field is the
empty list, `check_response` raises `KeyError("Список домашних работ пуст")`
(it does not return normally), and the poll cycle takes the generic error
path: the state is unchanged and the failure message is sent unless it
equals the stored last error message. -/
theorem check_response_empty_error_path (st : PollState)
    (es : List (String × PyVal))
    (h : List.lookup "homeworks" es = some (.list [])) :
    check_response (.dict es) = .error (.keyError "Список домашних работ пуст") ∧
    cycleOnResponse st (.ok (.dict es)) =
      (st,
        if failMessage (.keyError "Список домашних работ пуст") = st.message_error then []
        else [failMessage (.keyError "Список домашних работ пуст")]) := by
  have h1 : check_response (.dict es) =
      .error (.keyError "Список домашних работ пуст") := by
    simp [check_response, h]
  refine ⟨h1, ?_⟩
  simp only [cycleOnResponse, cycleTry, h1]
  split <;> simp_all

/-- C2 amended witness: the concrete empty-list response from the fresh
loop state. -/
theorem check_response_empty_error_path_witness :
    List.lookup "homeworks" [("homeworks", PyVal.list [])] = some (PyVal.list []) ∧
    (cycleOnResponse (initialState 0) (.ok (.dict [("homeworks", .list [])]))).2 =
      [failMessage (.keyError "Список домашних работ пуст")] :=
  ⟨rfl, by
    have h := check_response_empty_error_path (initialState 0)
      [("homeworks", PyVal.list [])] rfl
    have h2 := congrArg Prod.snd h.2
    rw [h2]
    decide⟩

/-- Every `parse_status` outcome is a subscript `TypeError`, a bare-key
subscript `KeyError`, an `UnknownStatusError`, or a success; the two
explicit guard raises appear in no branch. -/
lemma parse_status_outcomes (hw : PyVal) :
    (∃ m, parse_status hw = .error (.typeError m)) ∨
    parse_status hw = .error (.keyError "homework_name") ∨
    parse_status hw = .error (.keyError "status") ∨
    (∃ m, parse_status hw = .error (.unknownStatusError m)) ∨
    (∃ m, parse_status hw = .ok m) := by
  cases hw with
  | str s =>
    exact Or.inl ⟨"string indices must be integers", by simp [parse_status, pySubscript]⟩
  | int n =>
    exact Or.inl ⟨"int object is not subscriptable", by simp [parse_status, pySubscript]⟩
  | pyNone =>
    exact Or.inl ⟨"NoneType object is not subscriptable", by simp [parse_status, pySubscript]⟩
  | list xs =>
    exact Or.inl ⟨"list indices must be integers or slices, not str",
      by simp [parse_status, pySubscript]⟩
  | dict record =>
    rcases hn : List.lookup "homework_name" record with _ | nameV
    · exact Or.inr (Or.inl (by simp [parse_status, pySubscript, hn]))
    · rcases hs : List.lookup "status" record with _ | statusV
      · exact Or.inr (Or.inr (Or.inl
          (by simp [parse_status, pySubscript, pyContains, hn, hs])))
      · cases statusV with
        | str z =>
          rcases hv : List.lookup z HOMEWORK_STATUSES with _ | verdict
          · exact Or.inr (Or.inr (Or.inr (Or.inl
              ⟨"Неизвестный статус работы: " ++ pyFormat (PyVal.str z),
               by simp [parse_status, pySubscript, pyContains, statusMembership, hn, hs, hv]⟩)))
          · exact Or.inr (Or.inr (Or.inr (Or.inr
              ⟨"Изменился статус проверки работы \"" ++ pyFormat nameV ++ "\". " ++ verdict,
               by simp [parse_status, pySubscript, pyContains, statusMembership, hn, hs, hv]⟩)))
        | int z =>
          exact Or.inr (Or.inr (Or.inr (Or.inl
            ⟨"Неизвестный статус работы: " ++ pyFormat (PyVal.int z),
             by simp [parse_status, pySubscript, pyContains, statusMembership, hn, hs]⟩)))
        | pyNone =>
          exact Or.inr (Or.inr (Or.inr (Or.inl
            ⟨"Неизвестный статус работы: " ++ pyFormat PyVal.pyNone,
             by simp [parse_status, pySubscript, pyContains, statusMembership, hn, hs]⟩)))
        | list z =>
          exact Or.inl ⟨"unhashable type: list",
            by simp [parse_status, pySubscript, pyContains, statusMembership, hn, hs]⟩
        | dict z =>
          exact Or.inl ⟨"unhashable type: dict",
            by simp [parse_status, pySubscript, pyContains, statusMembership, hn, hs]⟩

/-- C8: for every input, `parse_status` never produces either of the two
explicit `raise KeyError("Отсутствует ключ ...")` branches; when a key is
missing from a record the `KeyError` comes from the subscript on the
preceding line, carrying the bare key name. -/
theorem parse_status_guard_unreachable (hw : PyVal) :
    parse_status hw ≠
        .error (.keyError "Отсутствует ключ \"homework_name\" в ответе API") ∧
    parse_status hw ≠ .error (.keyError "Отсутствует ключ \"status\" в ответе API") ∧
    (∀ record, hw = PyVal.dict record →
      List.lookup "homework_name" record = Option.none →
      parse_status hw = .error (.keyError "homework_name")) ∧
    (∀ record v, hw = PyVal.dict record →
      List.lookup "homework_name" record = some v →
      List.lookup "status" record = Option.none →
      parse_status hw = .error (.keyError "status")) := by
  refine ⟨?_, ?_, ?_, ?_⟩
  · rcases parse_status_outcomes hw with ⟨m, h⟩ | h | h | ⟨m, h⟩ | ⟨m, h⟩ <;>
      simp [h]
  · rcases parse_status_outcomes hw with ⟨m, h⟩ | h | h | ⟨m, h⟩ | ⟨m, h⟩ <;>
      simp [h]
  · intro record hr hnone
    cases hr
    simp [parse_status, pySubscript, hnone]
  · intro record v hr hv hnone
    cases hr
    simp [parse_status, pySubscript, pyContains, hv, hnone]

/-- C8 witness: the record missing `homework_name` fails with the bare
subscript `KeyError`, not the unreachable guard message. -/
theorem parse_status_guard_unreachable_witness :
    parse_status (.dict [("status", PyVal.str "approved")]) =
      .error (.keyError "homework_name") ∧
    parse_status (.dict [("status", PyVal.str "approved")]) ≠
      .error (.keyError "Отсутствует ключ \"homework_name\" в ответе API") :=
  ⟨(parse_status_guard_unreachable
      (.dict [("status", PyVal.str "approved")])).2.2.1 _ rfl rfl,
    (parse_status_guard_unreachable (.dict [("status", PyVal.str "approved")])).1⟩

/-- C3: a valid response whose first record carries both required fields
and a recognized status different from the stored one makes the cycle send
exactly one message — the formatted sentence embedding the submission name
and the fixed verdict — and store the new status. -/
theorem status_change_sends_one_notification (st : PollState)
    (res record : List (String × PyVal)) (rest : List PyVal) (nameV : PyVal)
    (sc verdict : String)
    (hhw : List.lookup "homeworks" res = some (.list (PyVal.dict record :: rest)))
    (hname : List.lookup "homework_name" record = some nameV)
    (hstat : List.lookup "status" record = some (.str sc))
    (hv : List.lookup sc HOMEWORK_STATUSES = some verdict)
    (hne : pyEqV st.status (.str sc) = false) :
    cycleOnResponse st (.ok (.dict res)) =
      ({ st with status := .str sc },
       ["Изменился статус проверки работы \"" ++ pyFormat nameV ++ "\". " ++ verdict]) :=
  cycle_eq_of_change st res record rest nameV sc verdict hhw hname hstat hv hne

/-- C3 witness: the record `hw1`/`approved` against the fresh state with
stored status `""` produces exactly the specified message and stores
`approved`. -/
theorem status_change_sends_one_notification_witness :
    List.lookup "status" [("homework_name", PyVal.str "hw1"), ("status", PyVal.str "approved")] =
      some (PyVal.str "approved") ∧
    pyEqV (initialState 0).status (.str "approved") = false ∧
    (cycleOnResponse (initialState 0)
        (.ok (.dict [("homeworks",
          .list [.dict [("homework_name", .str "hw1"), ("status", .str "approved")]])]))).2 =
      ["Изменился статус проверки работы \"hw1\". Работа проверена: ревьюеру всё понравилось. Ура!"] ∧
    (cycleOnResponse (initialState 0)
        (.ok (.dict [("homeworks",
          .list [.dict [("homework_name", .str "hw1"), ("status", .str "approved")]])]))).1.status =
      .str "approved" := by
  have h := status_change_sends_one_notification (initialState 0)
    [("homeworks", PyVal.list
      [PyVal.dict [("homework_name", PyVal.str "hw1"), ("status", PyVal.str "approved")]])]
    [("homework_name", PyVal.str "hw1"), ("status", PyVal.str "approved")]
    [] (PyVal.str "hw1") "approved" "Работа проверена: ревьюеру всё понравилось. Ура!"
    rfl rfl rfl rfl (by decide)
  refine ⟨rfl, by decide, ?_, ?_⟩
  · rw [congrArg Prod.snd h]
    decide
  · exact (congrArg (fun p => p.1.status) h).trans rfl

/-- C6: a record with both fields whose status string is not one of the
three recognized codes makes `parse_status` fail with `UnknownStatusError`
carrying the code, and the cycle produces no message from the record's
content — only the generic failure message of the error path, and that
only when it differs from the stored last error message. -/
theorem unknown_status_no_content_notification (st : PollState)
    (record : List (String × PyVal)) (nameV : PyVal) (sc : String)
    (hname : List.lookup "homework_name" record = some nameV)
    (hstat : List.lookup "status" record = some (.str sc))
    (hunk : List.lookup sc HOMEWORK_STATUSES = Option.none)
    (hne : pyEqV st.status (.str sc) = false) :
    parse_status (.dict record) =
      .error (.unknownStatusError ("Неизвестный статус работы: " ++ sc)) ∧
    cycleOnResponse st (.ok (.dict [("homeworks", .list [.dict record])])) =
      (st,
        if failMessage (.unknownStatusError ("Неизвестный статус работы: " ++ sc)) =
            st.message_error then []
        else [failMessage (.unknownStatusError ("Неизвестный статус работы: " ++ sc))]) := by
  have hrec : record.isEmpty = false := isEmpty_false_of_lookup hname
  have hps : parse_status (.dict record) =
      .error (.unknownStatusError ("Неизвестный статус работы: " ++ sc)) := by
    simp [parse_status, pySubscript, pyContains, statusMembership, pyFormat,
      hname, hstat, hunk]
  refine ⟨hps, ?_⟩
  have hcy : cycleTry st (.ok (.dict [("homeworks", .list [.dict record])])) =
      .error (.unknownStatusError ("Неизвестный статус работы: " ++ sc)) := by
    simp [cycleTry, check_response, pyIndex0, pyTruthy, pySubscript,
      hrec, hstat, hne, hps]
  simp only [cycleOnResponse, hcy]
  split <;> simp_all

/-- C6 witness: the record with status `weird` from the fresh state. -/
theorem unknown_status_no_content_notification_witness :
    List.lookup "weird" HOMEWORK_STATUSES = Option.none ∧
    parse_status (.dict [("homework_name", PyVal.str "x"), ("status", PyVal.str "weird")]) =
      .error (.unknownStatusError ("Неизвестный статус работы: " ++ "weird")) ∧
    (cycleOnResponse (initialState 0)
        (.ok (.dict [("homeworks",
          .list [.dict [("homework_name", PyVal.str "x"), ("status", PyVal.str "weird")]])]))).2 =
      [failMessage (.unknownStatusError ("Неизвестный статус работы: " ++ "weird"))] := by
  have h := unknown_status_no_content_notification (initialState 0)
    [("homework_name", PyVal.str "x"), ("status", PyVal.str "weird")]
    (PyVal.str "x") "weird" rfl rfl (by decide) (by decide)
  refine ⟨by decide, h.1, ?_⟩
  rw [congrArg Prod.snd h.2]
  decide

/-- C5: against an unchanged remote state (the same valid non-empty
response every cycle) at most one notification is sent across arbitrarily
many cycles, and none at all once the stored status already equals the
first record's status. -/
theorem unchanged_remote_at_most_one (st : PollState)
    (res record : List (String × PyVal)) (rest : List PyVal) (nameV : PyVal)
    (sc verdict : String)
    (hhw : List.lookup "homeworks" res = some (.list (PyVal.dict record :: rest)))
    (hname : List.lookup "homework_name" record = some nameV)
    (hstat : List.lookup "status" record = some (.str sc))
    (hv : List.lookup sc HOMEWORK_STATUSES = some verdict) :
    (∀ n, (runCycles (.ok (.dict res)) st n).2.length ≤ 1) ∧
    (st.status = .str sc → ∀ n, (runCycles (.ok (.dict res)) st n).2 = []) := by
  constructor
  · intro n
    cases n with
    | zero => simp [runCycles]
    | succ k =>
      by_cases he : pyEqV st.status (.str sc) = true
      · have hsame := (pyEqV_str_iff _ _).mp he
        rw [runCycles_noop st res record rest nameV sc hhw hname hstat hsame (k + 1)]
        simp
      · have hne : pyEqV st.status (.str sc) = false := by
          simpa using he
        have hc := cycle_eq_of_change st res record rest nameV sc verdict
          hhw hname hstat hv hne
        have hnil := runCycles_noop ({ st with status := .str sc } : PollState)
          res record rest nameV sc hhw hname hstat rfl k
        simp [runCycles, hc, hnil]
  · intro hsame n
    rw [runCycles_noop st res record rest nameV sc hhw hname hstat hsame n]

/-- C5 witness: three cycles against the unchanged `hw1`/`approved`
response send at most one message in total. -/
theorem unchanged_remote_at_most_one_witness :
    List.lookup "approved" HOMEWORK_STATUSES =
      some "Работа проверена: ревьюеру всё понравилось. Ура!" ∧
    (runCycles
        (.ok (.dict [("homeworks",
          .list [.dict [("homework_name", .str "hw1"), ("status", .str "approved")]])]))
        (initialState 0) 3).2.length ≤ 1 :=
  ⟨rfl,
    (unchanged_remote_at_most_one (initialState 0)
      [("homeworks", PyVal.list
        [PyVal.dict [("homework_name", PyVal.str "hw1"), ("status", PyVal.str "approved")]])]
      [("homework_name", PyVal.str "hw1"), ("status", PyVal.str "approved")]
      [] (PyVal.str "hw1") "approved" "Работа проверена: ревьюеру всё понравилось. Ура!"
      rfl rfl rfl rfl).1 3⟩

/-- C9: the timestamp stored before the loop is never reassigned, and every
iteration calls `get_api_answer` with that same process-start timestamp. -/
theorem timestamp_never_advances (net : Nat → Int → Except String HttpResponse)
    (now : Nat → Int) (st : PollState) (n : Nat) :
    (iteratePoll net now st n).current_timestamp = st.current_timestamp ∧
    pollCycle (net n) (now n) (iteratePoll net now st n) =
      cycleOnResponse (iteratePoll net now st n)
        (get_api_answer st.current_timestamp (now n) (net n)) := by
  have key : ∀ m, (iteratePoll net now st m).current_timestamp = st.current_timestamp := by
    intro m
    induction m with
    | zero => rfl
    | succ k ih =>
      have hp := (cycle_preserves_rest (iteratePoll net now st k)
        (get_api_answer (iteratePoll net now st k).current_timestamp (now k) (net k))).1
      simpa [iteratePoll, pollCycle, ih] using hp
  exact ⟨key n, by simp only [pollCycle, key n]⟩

/-- C1:`main` never updates `message_error` after sending a failure
notification, so a second consecutive identical error (here a 503 on two
cycles in a row) sends the failure message again instead of suppressing
the duplicate. -/
theorem repeated_503_sends_duplicate :
    (pollCycle net503 0 (initialState 1700000000)).2 =
      [failMessage (.statusCodeError ("Ошибка " ++ toString (503 : Int)))] ∧
    (pollCycle net503 0 ((pollCycle net503 0 (initialState 1700000000)).1)).2 =
      [failMessage (.statusCodeError ("Ошибка " ++ toString (503 : Int)))] ∧
    ((pollCycle net503 0 (initialState 1700000000)).1).message_error = "" := by
  refine ⟨by decide, by decide, by decide⟩

/-- C7: an HTTP 200 response whose body is not valid JSON does not make
`get_api_answer` fail with a JSON-decoding error: the one-argument call
`json.JSONDecodeError(api_answer_error)` itself raises `TypeError`
(the constructor requires `msg`, `doc` and `pos`), and that `TypeError` is
what leaves the function. -/
theorem invalid_json_body_raises_typeerror_not_jsondecodeerror :
    get_api_answer 1700000000 0 (fun _ => .ok ⟨200, Option.none⟩) =
      .error (.typeError jsonDecodeArityMessage) := rfl

end HomeworkBot
